import Mathlib

/-!
Verification of the checkpoint-sequencing and speed-throttling core of
`europython_bot/bot.py` (class `Bot`).

The embedding models the numeric quantities of `Bot.run` as exact rationals.
The great-circle distance function `distance_on_surface` lives in the external
`vendeeglobe` package, so it is kept abstract: every definition and theorem is
parametric in a distance function `distF` of the same shape
(longitude1, latitude1, longitude2, latitude2) ↦ distance.
The one place where float semantics matter observably — the division
`ch.radius / jump` when `jump == 0`, which in numpy yields `inf`/`-inf`/`nan`
rather than raising — is modelled by a small extended-value type `FV` whose
division and `min(·, 1)` follow the IEEE behaviour of numpy float64 scalars
and of Python's `min`.
-/

namespace EuropythonBot

/-- Modelled from the spec: `vendeeglobe.Checkpoint` is not under `src/`;
per the spec a checkpoint carries `latitude`, `longitude`, an arrival
`radius`, and a mutable `reached` flag that is initially `false`. -/
structure Checkpoint where
  latitude : ℚ
  longitude : ℚ
  radius : ℚ
  reached : Bool := false
deriving DecidableEq

instance : Inhabited Checkpoint := ⟨⟨0, 0, 0, false⟩⟩

/-- Modelled from the spec: `vendeeglobe.Location` is not under `src/`;
it is a pair of coordinates, constructed in `bot.py` as
`Location(longitude = ch.longitude, latitude = ch.latitude)`. -/
structure Location where
  longitude : ℚ
  latitude : ℚ
deriving DecidableEq

/-- Extended value: the result of the float64 arithmetic done on `sail`.
`fin q` is an ordinary (finite) value; `inf`, `ninf`, `nan` arise only from
division by zero, mirroring numpy float64 scalar semantics. -/
inductive FV where
  | fin (q : ℚ)
  | inf
  | ninf
  | nan
deriving DecidableEq

/-- numpy float64 scalar division: `a / 0` is `inf`, `-inf` or `nan`
(with a RuntimeWarning, not an exception) depending on the sign of `a`. -/
def fdiv (a b : ℚ) : FV :=
  if b = 0 then
    if 0 < a then FV.inf else if a < 0 then FV.ninf else FV.nan
  else FV.fin (a / b)

/-- Python's `min(x, 1)`: starts from `x` and replaces it by `1` only when
`1 < x`; in particular `min(nan, 1) = nan` and `min(inf, 1) = 1`. -/
def fmin1 : FV → FV
  | FV.fin q => if 1 < q then FV.fin 1 else FV.fin q
  | FV.inf => FV.fin 1
  | FV.ninf => FV.ninf
  | FV.nan => FV.nan

/-- The throttle computed at lines 139-142 of `bot.py` for the checkpoint
under examination:
`if dist < 2.0 * ch.radius + jump: sail = min(ch.radius / jump, 1)
 else: sail = 1.0`. -/
def sailFormula (dist radius jump : ℚ) : FV :=
  if dist < 2 * radius + jump then fmin1 (fdiv radius jump) else FV.fin 1

/-- Modelled from the spec: `vendeeglobe.Instructions` is not under `src/`;
it is a record of optional command fields plus an optional `sail`, all
initially unset (`Instructions()`); `bot.py` only ever assigns `location`
and `sail`. -/
structure Instructions where
  location : Option Location := none
  heading : Option ℚ := none
  vector : Option (ℚ × ℚ) := none
  left : Option ℚ := none
  right : Option ℚ := none
  sail : Option FV := none
deriving DecidableEq

/-- The `for ch in self.course:` loop of `Bot.run` (lines 129-151 of
`bot.py`), with the course passed explicitly and the updated course returned
in place of Python's in-place mutation of `ch.reached`. Each iteration:
compute `dist` to the checkpoint, compute `jump = dt * norm(speed)`, assign
`instructions.sail` from the throttle policy, mark the checkpoint reached
when `dist < ch.radius`, and either continue scanning (checkpoint reached)
or set `instructions.location` to this checkpoint and break. -/
def runLoop (distF : ℚ → ℚ → ℚ → ℚ → ℚ) (longitude latitude dt speed : ℚ) :
    List Checkpoint → Instructions → List Checkpoint × Instructions
  | [], instructions => ([], instructions)
  | ch :: rest, instructions =>
    let dist := distF longitude latitude ch.longitude ch.latitude
    let jump := dt * |speed|
    let instructions1 :=
      { instructions with sail := some (sailFormula dist ch.radius jump) }
    let ch1 := if dist < ch.radius then { ch with reached := true } else ch
    if ch1.reached then
      let next := runLoop distF longitude latitude dt speed rest instructions1
      (ch1 :: next.1, next.2)
    else
      (ch1 :: rest,
        { instructions1 with location := some ⟨ch.longitude, ch.latitude⟩ })

namespace Bot

/-- `Bot.run` (lines 59-153 of `bot.py`). The telemetry `t`, `heading` and
`vector` are accepted and ignored, exactly as in the source. The `forecast`
and `world_map` query functions are called once each with the current
position (the "TODO: Remove this" block, lines 119-126) and their results
are discarded. The scan loop then produces the updated course and the
returned `Instructions`. -/
def run (distF : ℚ → ℚ → ℚ → ℚ → ℚ)
    (forecast : ℚ → ℚ → ℚ → ℚ) (world_map : ℚ → ℚ → ℚ)
    (t dt longitude latitude heading speed : ℚ) (vector : ℚ × ℚ)
    (course : List Checkpoint) : List Checkpoint × Instructions :=
  let _current_position_forecast := forecast latitude longitude 0
  let _current_position_terrain := world_map latitude longitude
  runLoop distF longitude latitude dt speed course {}

end Bot

/-- `distance_on_surface(longitude1 = longitude, latitude1 = latitude,
longitude2 = ch.longitude, latitude2 = ch.latitude)` applied to one
checkpoint. -/
def distTo (distF : ℚ → ℚ → ℚ → ℚ → ℚ) (longitude latitude : ℚ)
    (ch : Checkpoint) : ℚ :=
  distF longitude latitude ch.longitude ch.latitude

/-- Whether a checkpoint is reached after the reached-check of its own
iteration: it was reached before, or the current distance is below its
radius (line 145-146 of `bot.py`). -/
def afterCheckReached (distF : ℚ → ℚ → ℚ → ℚ → ℚ) (longitude latitude : ℚ)
    (ch : Checkpoint) : Bool :=
  ch.reached || decide (distTo distF longitude latitude ch < ch.radius)

/-- Index of the first checkpoint that is still unreached after its own
reached-check — the checkpoint at which the scan of `Bot.run` stops and
whose coordinates become the target; equals the course length when every
checkpoint is reached before or during the scan. -/
def firstUnreachedIdx (distF : ℚ → ℚ → ℚ → ℚ → ℚ) (longitude latitude : ℚ) :
    List Checkpoint → ℕ
  | [] => 0
  | ch :: rest =>
    if afterCheckReached distF longitude latitude ch then
      firstUnreachedIdx distF longitude latitude rest + 1
    else 0

/-- Number of checkpoints examined by the scan of `Bot.run`: the scan
iterates as long as checkpoints come out of their reached-check reached, and
performs one final iteration at the stopping checkpoint (if any). -/
def scanCount (distF : ℚ → ℚ → ℚ → ℚ → ℚ) (longitude latitude : ℚ) :
    List Checkpoint → ℕ
  | [] => 0
  | ch :: rest =>
    if afterCheckReached distF longitude latitude ch then
      scanCount distF longitude latitude rest + 1
    else 1

/-- The `j`-th checkpoint of a course (defaulting outside the course). -/
def nth (cs : List Checkpoint) (j : ℕ) : Checkpoint := cs.getD j default

/-- The course constructed in `Bot.__init__` (lines 27-57 of `bot.py`).
The final checkpoint closes the loop at `config.start`, which lives in the
external `vendeeglobe` package, so the start coordinates are parameters.
Every `reached` flag is initially false (the `Checkpoint` default). -/
def botCourse (startLat startLon : ℚ) : List Checkpoint :=
  [ { latitude := 19.642470, longitude := -67.647903, radius := 50.0 },
    { latitude := 17.547803, longitude := -67.684136, radius := 50.0 },
    { latitude := 9.790025, longitude := -80.239573, radius := 25.0 },
    { latitude := 8.211505, longitude := -79.257962, radius := 5.0 },
    { latitude := 4.588588, longitude := -79.103848, radius := 5.0 },
    { latitude := 2.806318, longitude := -168.943864, radius := 1990.0 },
    { latitude := -45.323803, longitude := 146.583239, radius := 50.0 },
    { latitude := -15.668984, longitude := 77.674694, radius := 1190.0 },
    { latitude := 16.052669, longitude := 57.139665, radius := 5.0 },
    { latitude := 12.019005, longitude := 43.842936, radius := 5.0 },
    { latitude := 13.261215, longitude := 42.965917, radius := 5.0 },
    { latitude := 27.274732, longitude := 34.780896, radius := 5.0 },
    { latitude := 27.446995, longitude := 34.032762, radius := 5.0 },
    { latitude := 30.052491, longitude := 32.247897, radius := 50.0 },
    { latitude := 31.649919, longitude := 32.340517, radius := 5.0 },
    { latitude := 32.718687, longitude := 31.067931, radius := 5.0 },
    { latitude := 35.563709, longitude := 13.286058, radius := 5.0 },
    { latitude := 38.431296, longitude := 10.546054, radius := 5.0 },
    { latitude := 37.193482, longitude := 0.674736, radius := 5.0 },
    { latitude := 36.011121, longitude := -2.553028, radius := 5.0 },
    { latitude := 35.995605, longitude := -4.816351, radius := 5.0 },
    { latitude := 35.918048, longitude := -7.032032, radius := 5.0 },
    { latitude := 35.549149, longitude := -11.086910, radius := 5.0 },
    { latitude := 44.112596, longitude := -10.353684, radius := 5.0 },
    { latitude := startLat, longitude := startLon, radius := 5 } ]

/-- One tick's telemetry, as passed by the harness to `Bot.run`. -/
structure Telemetry where
  t : ℚ
  dt : ℚ
  longitude : ℚ
  latitude : ℚ
  heading : ℚ
  speed : ℚ
  vector : ℚ × ℚ

/-- A sequence of calls to `Bot.run`, each feeding the mutated course into
the next call, as the harness does once per tick. -/
def runSeq (distF : ℚ → ℚ → ℚ → ℚ → ℚ)
    (forecast : ℚ → ℚ → ℚ → ℚ) (world_map : ℚ → ℚ → ℚ) :
    List Telemetry → List Checkpoint → List Checkpoint
  | [], cs => cs
  | tel :: tels, cs =>
    runSeq distF forecast world_map tels
      (Bot.run distF forecast world_map tel.t tel.dt tel.longitude
        tel.latitude tel.heading tel.speed tel.vector cs).1

/-- A simple concrete stand-in distance function for evaluating the
development on explicit inputs (the real `distance_on_surface` is external;
all theorems are parametric in the distance function). -/
def mdist (lon1 lat1 lon2 lat2 : ℚ) : ℚ := |lon1 - lon2| + |lat1 - lat2|

/-- Trivial concrete forecast query, for evaluation on explicit inputs. -/
def fc0 : ℚ → ℚ → ℚ → ℚ := fun _ _ _ => 0

/-- Trivial concrete world-map query, for evaluation on explicit inputs. -/
def wm0 : ℚ → ℚ → ℚ := fun _ _ => 0

@[simp] theorem nth_cons_zero {ch : Checkpoint} {rest : List Checkpoint} :
    nth (ch :: rest) 0 = ch := rfl

@[simp] theorem nth_cons_succ {ch : Checkpoint} {rest : List Checkpoint}
    {j : ℕ} : nth (ch :: rest) (j + 1) = nth rest j := rfl

theorem nth_mem {cs : List Checkpoint} {j : ℕ} (h : j < cs.length) :
    nth cs j ∈ cs := by
  induction cs generalizing j with
  | nil => simp at h
  | cons ch rest ih =>
    cases j with
    | zero => simp [nth]
    | succ j =>
      simp only [nth_cons_succ]
      exact List.mem_cons_of_mem _ (ih (by simpa using h))

/-! ### Characterization of one scan step -/

theorem runLoop_cons (distF : ℚ → ℚ → ℚ → ℚ → ℚ)
    (longitude latitude dt speed : ℚ) (ch : Checkpoint)
    (rest : List Checkpoint) (ins : Instructions) :
    runLoop distF longitude latitude dt speed (ch :: rest) ins =
      if afterCheckReached distF longitude latitude ch then
        ((if distTo distF longitude latitude ch < ch.radius then
            { ch with reached := true } else ch) ::
          (runLoop distF longitude latitude dt speed rest
            { ins with sail := some (sailFormula (distTo distF longitude latitude ch)
                ch.radius (dt * |speed|)) }).1,
         (runLoop distF longitude latitude dt speed rest
            { ins with sail := some (sailFormula (distTo distF longitude latitude ch)
                ch.radius (dt * |speed|)) }).2)
      else
        (ch :: rest,
          { ins with
            sail := some (sailFormula (distTo distF longitude latitude ch)
              ch.radius (dt * |speed|)),
            location := some ⟨ch.longitude, ch.latitude⟩ }) := by
  by_cases hd : distF longitude latitude ch.longitude ch.latitude < ch.radius
  · simp [runLoop, afterCheckReached, distTo, hd]
  · by_cases hr : ch.reached
    · simp [runLoop, afterCheckReached, distTo, hd, hr]
    · simp [runLoop, afterCheckReached, distTo, hd, hr]

/-! ### Bounds for the derived scan indices -/

theorem scanCount_pos (distF : ℚ → ℚ → ℚ → ℚ → ℚ) (longitude latitude : ℚ)
    (cs : List Checkpoint) (h : cs ≠ []) :
    1 ≤ scanCount distF longitude latitude cs := by
  cases cs with
  | nil => exact absurd rfl h
  | cons ch rest =>
    simp only [scanCount]
    split <;> omega

theorem scanCount_le_length (distF : ℚ → ℚ → ℚ → ℚ → ℚ)
    (longitude latitude : ℚ) (cs : List Checkpoint) :
    scanCount distF longitude latitude cs ≤ cs.length := by
  induction cs with
  | nil => simp [scanCount]
  | cons ch rest ih =>
    simp only [scanCount, List.length_cons]
    split <;> omega

theorem firstUnreachedIdx_le_length (distF : ℚ → ℚ → ℚ → ℚ → ℚ)
    (longitude latitude : ℚ) (cs : List Checkpoint) :
    firstUnreachedIdx distF longitude latitude cs ≤ cs.length := by
  induction cs with
  | nil => simp [firstUnreachedIdx]
  | cons ch rest ih =>
    simp only [firstUnreachedIdx, List.length_cons]
    split <;> omega

theorem scanCount_eq_min (distF : ℚ → ℚ → ℚ → ℚ → ℚ)
    (longitude latitude : ℚ) (cs : List Checkpoint) :
    scanCount distF longitude latitude cs =
      min (firstUnreachedIdx distF longitude latitude cs + 1) cs.length := by
  induction cs with
  | nil => simp [scanCount, firstUnreachedIdx]
  | cons ch rest ih =>
    simp only [scanCount, firstUnreachedIdx, List.length_cons]
    split
    · omega
    · omega

/-! ### Characterization of the full scan -/

theorem runLoop_length (distF : ℚ → ℚ → ℚ → ℚ → ℚ)
    (longitude latitude dt speed : ℚ) (cs : List Checkpoint)
    (ins : Instructions) :
    (runLoop distF longitude latitude dt speed cs ins).1.length = cs.length := by
  induction cs generalizing ins with
  | nil => rfl
  | cons ch rest ih =>
    rw [runLoop_cons]
    split
    · simp [ih]
    · simp

theorem runLoop_fst_nth (distF : ℚ → ℚ → ℚ → ℚ → ℚ)
    (longitude latitude dt speed : ℚ) (cs : List Checkpoint)
    (ins : Instructions) (j : ℕ) (hj : j < cs.length) :
    nth (runLoop distF longitude latitude dt speed cs ins).1 j =
      if j < scanCount distF longitude latitude cs ∧
          distTo distF longitude latitude (nth cs j) < (nth cs j).radius then
        { nth cs j with reached := true }
      else nth cs j := by
  induction cs generalizing ins j with
  | nil => simp at hj
  | cons ch rest ih =>
    rw [runLoop_cons]
    by_cases hac : afterCheckReached distF longitude latitude ch
    · rw [if_pos hac]
      cases j with
      | zero =>
        have h1 : 0 < scanCount distF longitude latitude (ch :: rest) := by
          simp only [scanCount, hac, if_pos]
          omega
        by_cases hd : distTo distF longitude latitude ch < ch.radius
        · simp [h1, hd]
        · simp [hd]
      | succ j =>
        have hj' : j < rest.length := by simpa using hj
        have hsc : scanCount distF longitude latitude (ch :: rest) =
            scanCount distF longitude latitude rest + 1 := by
          simp [scanCount, hac]
        simp only [nth_cons_succ, List.getD_cons_succ, hsc, Nat.succ_lt_succ_iff]
        exact ih _ j hj'
    · rw [if_neg hac]
      have hsc : scanCount distF longitude latitude (ch :: rest) = 1 := by
        simp [scanCount, hac]
      have hparts : ch.reached = false ∧
          ¬ distTo distF longitude latitude ch < ch.radius := by
        simpa [afterCheckReached] using hac
      cases j with
      | zero => simp [hsc, hparts.2]
      | succ j => simp [hsc]

theorem runLoop_sail (distF : ℚ → ℚ → ℚ → ℚ → ℚ)
    (longitude latitude dt speed : ℚ) (cs : List Checkpoint)
    (ins : Instructions) (h : cs ≠ []) :
    (runLoop distF longitude latitude dt speed cs ins).2.sail =
      some (sailFormula
        (distTo distF longitude latitude
          (nth cs (scanCount distF longitude latitude cs - 1)))
        (nth cs (scanCount distF longitude latitude cs - 1)).radius
        (dt * |speed|)) := by
  induction cs generalizing ins with
  | nil => exact absurd rfl h
  | cons ch rest ih =>
    rw [runLoop_cons]
    by_cases hac : afterCheckReached distF longitude latitude ch
    · rw [if_pos hac]
      have hsc : scanCount distF longitude latitude (ch :: rest) =
          scanCount distF longitude latitude rest + 1 := by
        simp [scanCount, hac]
      cases rest with
      | nil =>
        simp [runLoop, hsc, scanCount]
      | cons r rs =>
        have hpos : 1 ≤ scanCount distF longitude latitude (r :: rs) :=
          scanCount_pos _ _ _ _ (by simp)
        rw [ih _ (by simp)]
        have hidx : scanCount distF longitude latitude (ch :: r :: rs) - 1 =
            (scanCount distF longitude latitude (r :: rs) - 1) + 1 := by
          omega
        rw [hidx, nth_cons_succ]
    · rw [if_neg hac]
      have hsc : scanCount distF longitude latitude (ch :: rest) = 1 := by
        simp [scanCount, hac]
      simp [hsc]

theorem runLoop_location (distF : ℚ → ℚ → ℚ → ℚ → ℚ)
    (longitude latitude dt speed : ℚ) (cs : List Checkpoint)
    (ins : Instructions) :
    (runLoop distF longitude latitude dt speed cs ins).2.location =
      if firstUnreachedIdx distF longitude latitude cs < cs.length then
        some ⟨(nth cs (firstUnreachedIdx distF longitude latitude cs)).longitude,
              (nth cs (firstUnreachedIdx distF longitude latitude cs)).latitude⟩
      else ins.location := by
  induction cs generalizing ins with
  | nil => simp [runLoop, firstUnreachedIdx]
  | cons ch rest ih =>
    rw [runLoop_cons]
    by_cases hac : afterCheckReached distF longitude latitude ch
    · rw [if_pos hac]
      have hfi : firstUnreachedIdx distF longitude latitude (ch :: rest) =
          firstUnreachedIdx distF longitude latitude rest + 1 := by
        simp [firstUnreachedIdx, hac]
      rw [ih]
      simp only [hfi, List.length_cons, Nat.succ_lt_succ_iff, nth_cons_succ]
    · rw [if_neg hac]
      have hfi : firstUnreachedIdx distF longitude latitude (ch :: rest) = 0 := by
        simp [firstUnreachedIdx, hac]
      simp [hfi]

theorem le_firstUnreachedIdx (distF : ℚ → ℚ → ℚ → ℚ → ℚ)
    (longitude latitude : ℚ) (cs : List Checkpoint) (i : ℕ)
    (hi : i ≤ cs.length)
    (h : ∀ j, j < i → afterCheckReached distF longitude latitude (nth cs j) = true) :
    i ≤ firstUnreachedIdx distF longitude latitude cs := by
  induction cs generalizing i with
  | nil =>
    simp only [List.length_nil, Nat.le_zero] at hi
    omega
  | cons ch rest ih =>
    cases i with
    | zero => omega
    | succ i =>
      have hch : afterCheckReached distF longitude latitude ch = true := by
        simpa using h 0 (Nat.succ_pos i)
      have : i ≤ firstUnreachedIdx distF longitude latitude rest := by
        refine ih i (by simpa using hi) ?_
        intro j hj
        simpa using h (j + 1) (by omega)
      simp only [firstUnreachedIdx, hch, if_pos]
      omega

theorem firstUnreachedIdx_eq (distF : ℚ → ℚ → ℚ → ℚ → ℚ)
    (longitude latitude : ℚ) (cs : List Checkpoint) (k : ℕ)
    (hk : k < cs.length)
    (hbefore : ∀ j, j < k →
      afterCheckReached distF longitude latitude (nth cs j) = true)
    (hstop : afterCheckReached distF longitude latitude (nth cs k) = false) :
    firstUnreachedIdx distF longitude latitude cs = k := by
  induction cs generalizing k with
  | nil => simp at hk
  | cons ch rest ih =>
    cases k with
    | zero =>
      have : afterCheckReached distF longitude latitude ch = false := by
        simpa using hstop
      simp [firstUnreachedIdx, this]
    | succ k =>
      have hch : afterCheckReached distF longitude latitude ch = true := by
        simpa using hbefore 0 (Nat.succ_pos k)
      have hrest : firstUnreachedIdx distF longitude latitude rest = k := by
        refine ih k (by simpa using hk) ?_ (by simpa using hstop)
        intro j hj
        simpa using hbefore (j + 1) (by omega)
      simp [firstUnreachedIdx, hch, hrest]

/-! ### Arithmetic facts about the throttle formula -/

theorem fmin1_fdiv_of_ne (r j : ℚ) (hj : j ≠ 0) :
    fmin1 (fdiv r j) = FV.fin (min (r / j) 1) := by
  simp only [fdiv, if_neg hj, fmin1]
  rcases lt_or_le 1 (r / j) with h | h
  · rw [if_pos h, min_eq_right h.le]
  · rw [if_neg (not_lt.mpr h), min_eq_left h]

theorem sailFormula_jump_zero (dist radius : ℚ) (hd : 0 ≤ dist) :
    sailFormula dist radius 0 = FV.fin 1 := by
  unfold sailFormula
  by_cases h : dist < 2 * radius + 0
  · have hr : 0 < radius := by linarith
    simp [h, fdiv, fmin1, hr]
  · rw [if_neg h]

theorem sailFormula_unit_interval (dist radius jump : ℚ)
    (hd : 0 ≤ dist) (hr : 0 ≤ radius) (hj : 0 ≤ jump) :
    ∃ q, sailFormula dist radius jump = FV.fin q ∧ 0 ≤ q ∧ q ≤ 1 := by
  rcases eq_or_lt_of_le hj with hj0 | hjpos
  · rw [← hj0, sailFormula_jump_zero dist radius hd]
    exact ⟨1, rfl, by norm_num⟩
  · unfold sailFormula
    by_cases h : dist < 2 * radius + jump
    · rw [if_pos h, fmin1_fdiv_of_ne _ _ (ne_of_gt hjpos)]
      refine ⟨min (radius / jump) 1, rfl, ?_, min_le_right _ _⟩
      exact le_min (div_nonneg hr hjpos.le) zero_le_one
    · exact ⟨1, by rw [if_neg h], by norm_num⟩

/-! ### Basic facts about `Bot.run` and `runSeq` -/

theorem Bot.run_eq (distF : ℚ → ℚ → ℚ → ℚ → ℚ)
    (forecast : ℚ → ℚ → ℚ → ℚ) (world_map : ℚ → ℚ → ℚ)
    (t dt longitude latitude heading speed : ℚ) (vector : ℚ × ℚ)
    (course : List Checkpoint) :
    Bot.run distF forecast world_map t dt longitude latitude heading speed
        vector course =
      runLoop distF longitude latitude dt speed course {} := rfl

theorem Bot.run_length (distF : ℚ → ℚ → ℚ → ℚ → ℚ)
    (forecast : ℚ → ℚ → ℚ → ℚ) (world_map : ℚ → ℚ → ℚ)
    (t dt longitude latitude heading speed : ℚ) (vector : ℚ × ℚ)
    (course : List Checkpoint) :
    (Bot.run distF forecast world_map t dt longitude latitude heading speed
        vector course).1.length = course.length := by
  rw [Bot.run_eq]
  exact runLoop_length _ _ _ _ _ _ _

theorem Bot.run_reached_mono (distF : ℚ → ℚ → ℚ → ℚ → ℚ)
    (forecast : ℚ → ℚ → ℚ → ℚ) (world_map : ℚ → ℚ → ℚ)
    (t dt longitude latitude heading speed : ℚ) (vector : ℚ × ℚ)
    (cs : List Checkpoint) (j : ℕ) (hj : j < cs.length)
    (h : (nth cs j).reached = true) :
    (nth (Bot.run distF forecast world_map t dt longitude latitude heading
        speed vector cs).1 j).reached = true := by
  rw [Bot.run_eq, runLoop_fst_nth _ _ _ _ _ _ _ j hj]
  split
  · rfl
  · exact h

theorem scanCount_sub_one_lt (distF : ℚ → ℚ → ℚ → ℚ → ℚ)
    (longitude latitude : ℚ) (cs : List Checkpoint) (h : cs ≠ []) :
    scanCount distF longitude latitude cs - 1 < cs.length := by
  have h1 := scanCount_le_length distF longitude latitude cs
  have h2 : 0 < cs.length := List.length_pos.mpr h
  omega

/-! ### Claim theorems -/

/-- C1: For the checkpoint under examination when the scan of a call to
`run` ends (index `scanCount - 1`), with `dist` the distance from the
current position to it and `jump = dt * |speed|` (here nonzero so that the
claimed `min(radius / jump, 1)` denotes a number): if
`dist < 2 * radius + jump` the returned sail is `min(radius / jump, 1)`,
and otherwise the returned sail is `1.0`. -/
theorem c1_sail_throttle_formula (distF : ℚ → ℚ → ℚ → ℚ → ℚ)
    (forecast : ℚ → ℚ → ℚ → ℚ) (world_map : ℚ → ℚ → ℚ)
    (t dt longitude latitude heading speed : ℚ) (vector : ℚ × ℚ)
    (cs : List Checkpoint) (hcs : cs ≠ []) (hjump : dt * |speed| ≠ 0) :
    (Bot.run distF forecast world_map t dt longitude latitude heading speed
        vector cs).2.sail =
      some (if distTo distF longitude latitude
              (nth cs (scanCount distF longitude latitude cs - 1)) <
            2 * (nth cs (scanCount distF longitude latitude cs - 1)).radius +
              dt * |speed| then
        FV.fin (min ((nth cs (scanCount distF longitude latitude cs - 1)).radius /
          (dt * |speed|)) 1)
      else FV.fin 1) := by
  rw [Bot.run_eq, runLoop_sail _ _ _ _ _ _ _ hcs]
  unfold sailFormula
  rw [fmin1_fdiv_of_ne _ _ hjump]

/-- Witness for C1: one far checkpoint (distance 5, radius 1, jump 1), so
the scan ends at index 0 with `5 < 2 * 1 + 1` false and sail `1`. -/
theorem c1_witness :
    (([{ latitude := 0, longitude := 0, radius := 1 }] :
        List Checkpoint) ≠ []) ∧
    ((1 : ℚ) * |(1 : ℚ)| ≠ 0) ∧
    (Bot.run mdist fc0 wm0 0 1 5 0 0 1 (0, 0)
        [{ latitude := 0, longitude := 0, radius := 1 }]).2.sail =
      some (FV.fin 1) :=
  ⟨by decide, by with_unfolding_all decide, by
    have h := c1_sail_throttle_formula mdist fc0 wm0 0 1 5 0 0 1 (0, 0)
      [{ latitude := 0, longitude := 0, radius := 1 }] (by decide)
      (by with_unfolding_all decide)
    rw [h]
    with_unfolding_all decide⟩

/-- C3: During a call to `run`, the `j`-th reached flag of the returned
course is true exactly when it was true before, or checkpoint `j` was
scanned in the call (`j < scanCount`) with distance strictly below its
radius; checkpoints not scanned, or scanned with `dist ≥ radius`, keep
their previous flag. -/
theorem c3_reached_iff_scanned_close (distF : ℚ → ℚ → ℚ → ℚ → ℚ)
    (forecast : ℚ → ℚ → ℚ → ℚ) (world_map : ℚ → ℚ → ℚ)
    (t dt longitude latitude heading speed : ℚ) (vector : ℚ × ℚ)
    (cs : List Checkpoint) (j : ℕ) (hj : j < cs.length) :
    (nth (Bot.run distF forecast world_map t dt longitude latitude heading
        speed vector cs).1 j).reached =
      ((nth cs j).reached ||
        (decide (j < scanCount distF longitude latitude cs) &&
          decide (distTo distF longitude latitude (nth cs j) <
            (nth cs j).radius))) := by
  rw [Bot.run_eq, runLoop_fst_nth _ _ _ _ _ _ _ j hj]
  by_cases h1 : j < scanCount distF longitude latitude cs
  · by_cases h2 : distTo distF longitude latitude (nth cs j) <
        (nth cs j).radius
    · simp [h1, h2]
    · simp [h1, h2]
  · simp [h1]

/-- Witness for C3: the vessel sits on a radius-1 checkpoint, which is
scanned and whose flag flips from false to true. -/
theorem c3_witness :
    (0 < ([{ latitude := 0, longitude := 0, radius := 1 }] :
        List Checkpoint).length) ∧
    (nth (Bot.run mdist fc0 wm0 0 1 0 0 0 1 (0, 0)
        [{ latitude := 0, longitude := 0, radius := 1 }]).1 0).reached =
      true :=
  ⟨by decide, by
    have h := c3_reached_iff_scanned_close mdist fc0 wm0 0 1 0 0 0 1 (0, 0)
      [{ latitude := 0, longitude := 0, radius := 1 }] 0 (by decide)
    rw [h]
    with_unfolding_all decide⟩

/-- C4: When `jump = dt * |speed|` is zero (stationary vessel or zero tick
duration) and distances are non-negative, a call to `run` on a nonempty
course returns the deterministic finite sail `1`: the numpy division
`radius / 0` yields `inf`, which `min(·, 1)` clamps to `1`, so no division
error is raised and no NaN or Inf reaches the returned sail. -/
theorem c4_zero_jump_sail (distF : ℚ → ℚ → ℚ → ℚ → ℚ)
    (forecast : ℚ → ℚ → ℚ → ℚ) (world_map : ℚ → ℚ → ℚ)
    (t dt longitude latitude heading speed : ℚ) (vector : ℚ × ℚ)
    (cs : List Checkpoint) (hcs : cs ≠ [])
    (hjump : dt * |speed| = 0)
    (hdist : ∀ j, j < cs.length →
      0 ≤ distTo distF longitude latitude (nth cs j)) :
    (Bot.run distF forecast world_map t dt longitude latitude heading speed
        vector cs).2.sail = some (FV.fin 1) := by
  rw [Bot.run_eq, runLoop_sail _ _ _ _ _ _ _ hcs, hjump,
    sailFormula_jump_zero _ _
      (hdist _ (scanCount_sub_one_lt distF longitude latitude cs hcs))]

/-- Witness for C4: `speed = 0`, `dt = 1`, vessel on a radius-1 checkpoint
(`dist = 0 < 2 * radius + 0`), so the guarded division-by-zero branch is
taken and the returned sail is the finite value `1`. -/
theorem c4_witness :
    ((1 : ℚ) * |(0 : ℚ)| = 0) ∧
    (Bot.run mdist fc0 wm0 0 1 0 0 0 0 (0, 0)
        [{ latitude := 0, longitude := 0, radius := 1 }]).2.sail =
      some (FV.fin 1) :=
  ⟨by with_unfolding_all decide,
    c4_zero_jump_sail mdist fc0 wm0 0 1 0 0 0 0 (0, 0)
      [{ latitude := 0, longitude := 0, radius := 1 }] (by decide)
      (by with_unfolding_all decide)
      (by
        intro j hj
        have hj0 : j = 0 := by
          simp at hj
          omega
        subst hj0
        with_unfolding_all decide)⟩

/-- C2 counterexample: the vessel is within radius of checkpoint 0 and
there are no checkpoints before it, so the claim's hypotheses hold at
`i = 0`; but checkpoint 1 (at longitude 10) was already reached, so the
returned target is checkpoint 2's location (longitude 20), not checkpoint
1's location as the claim states. -/
theorem c2_counterexample :
    distTo mdist 0 0 (nth [{ latitude := 0, longitude := 0, radius := 1 },
        { latitude := 0, longitude := 10, radius := 1, reached := true },
        { latitude := 0, longitude := 20, radius := 1 }] 0) <
      (nth [{ latitude := 0, longitude := 0, radius := 1 },
        { latitude := 0, longitude := 10, radius := 1, reached := true },
        { latitude := 0, longitude := 20, radius := 1 }] 0).radius ∧
    (Bot.run mdist fc0 wm0 0 1 0 0 0 1 (0, 0)
        [{ latitude := 0, longitude := 0, radius := 1 },
         { latitude := 0, longitude := 10, radius := 1, reached := true },
         { latitude := 0, longitude := 20, radius := 1 }]).2.location =
      some { longitude := 20, latitude := 0 } ∧
    some ({ longitude := 20, latitude := 0 } : Location) ≠
      some ({ longitude := 10, latitude := 0 } : Location) := by
  refine ⟨?_, ?_, ?_⟩ <;> with_unfolding_all decide

/-- C2 (amended): A call to `run` scans checkpoints in course order and
returns as its target the coordinates of the first checkpoint that is
still unreached after that checkpoint's reached-check, stopping the scan
there (no target if there is no such checkpoint); already-reached
checkpoints are skipped. If the current position is within radius of
checkpoint `i` and checkpoints `0..i-1` are already reached, the call
marks checkpoint `i` reached, and — provided checkpoint `i+1` exists and
is itself still unreached after its own reached-check — the returned
target is checkpoint `i+1`'s location. -/
theorem c2_first_unreached_target (distF : ℚ → ℚ → ℚ → ℚ → ℚ)
    (forecast : ℚ → ℚ → ℚ → ℚ) (world_map : ℚ → ℚ → ℚ)
    (t dt longitude latitude heading speed : ℚ) (vector : ℚ × ℚ)
    (cs : List Checkpoint) (i : ℕ) (hi : i < cs.length)
    (hbefore : ∀ j, j < i → (nth cs j).reached = true)
    (hdist : distTo distF longitude latitude (nth cs i) < (nth cs i).radius) :
    ((Bot.run distF forecast world_map t dt longitude latitude heading speed
        vector cs).2.location =
      if firstUnreachedIdx distF longitude latitude cs < cs.length then
        some ⟨(nth cs (firstUnreachedIdx distF longitude latitude cs)).longitude,
              (nth cs (firstUnreachedIdx distF longitude latitude cs)).latitude⟩
      else none) ∧
    (nth (Bot.run distF forecast world_map t dt longitude latitude heading
        speed vector cs).1 i).reached = true ∧
    (i + 1 < cs.length →
      afterCheckReached distF longitude latitude (nth cs (i + 1)) = false →
      (Bot.run distF forecast world_map t dt longitude latitude heading speed
          vector cs).2.location =
        some ⟨(nth cs (i + 1)).longitude, (nth cs (i + 1)).latitude⟩) := by
  have hac : ∀ j, j < i →
      afterCheckReached distF longitude latitude (nth cs j) = true := by
    intro j hj
    simp [afterCheckReached, hbefore j hj]
  have hloc : (Bot.run distF forecast world_map t dt longitude latitude
      heading speed vector cs).2.location =
      if firstUnreachedIdx distF longitude latitude cs < cs.length then
        some ⟨(nth cs (firstUnreachedIdx distF longitude latitude cs)).longitude,
              (nth cs (firstUnreachedIdx distF longitude latitude cs)).latitude⟩
      else none := by
    rw [Bot.run_eq, runLoop_location]
  refine ⟨hloc, ?_, ?_⟩
  · have hile : i ≤ firstUnreachedIdx distF longitude latitude cs :=
      le_firstUnreachedIdx _ _ _ _ i hi.le hac
    have hisc : i < scanCount distF longitude latitude cs := by
      rw [scanCount_eq_min]
      omega
    rw [Bot.run_eq, runLoop_fst_nth _ _ _ _ _ _ _ i hi,
      if_pos ⟨hisc, hdist⟩]
  · intro hi1 hstop
    have hall : ∀ j, j < i + 1 →
        afterCheckReached distF longitude latitude (nth cs j) = true := by
      intro j hj
      rcases Nat.lt_succ_iff_lt_or_eq.mp hj with h | h
      · exact hac j h
      · subst h
        simp [afterCheckReached, hdist]
    have hfi : firstUnreachedIdx distF longitude latitude cs = i + 1 :=
      firstUnreachedIdx_eq _ _ _ _ (i + 1) hi1 hall hstop
    rw [hloc, hfi, if_pos hi1]

/-- Witness for C2 (amended): vessel on checkpoint 0 (radius 1), checkpoint
1 far away and unreached, so checkpoint 0 is marked and the target is
checkpoint 1's location. -/
theorem c2_witness :
    (Bot.run mdist fc0 wm0 0 1 0 0 0 1 (0, 0)
        [{ latitude := 0, longitude := 0, radius := 1 },
         { latitude := 0, longitude := 100, radius := 1 }]).2.location =
      some { longitude := 100, latitude := 0 } := by
  have h := (c2_first_unreached_target mdist fc0 wm0 0 1 0 0 0 1 (0, 0)
    [{ latitude := 0, longitude := 0, radius := 1 },
     { latitude := 0, longitude := 100, radius := 1 }] 0 (by decide)
    (fun j hj => absurd hj (Nat.not_lt_zero j))
    (by with_unfolding_all decide)).2.2 (by decide)
    (by with_unfolding_all decide)
  rw [h]
  rfl

/-- C5 counterexample: checkpoint 0 (radius 1, distance 0) is just marked
reached during the call and the scan continues to checkpoint 1 (distance
100), which becomes the target. With `jump = 2`, the throttle computed
against the just-reached checkpoint 0 is `min(1/2, 1) = 1/2`, but the sail
actually returned is `1` (the throttle against checkpoint 1): the returned
sail does NOT reflect the just-reached old checkpoint. -/
theorem c5_counterexample :
    (nth (Bot.run mdist fc0 wm0 0 2 0 0 0 1 (0, 0)
        [{ latitude := 0, longitude := 0, radius := 1 },
         { latitude := 0, longitude := 100, radius := 1 }]).1 0).reached =
      true ∧
    (Bot.run mdist fc0 wm0 0 2 0 0 0 1 (0, 0)
        [{ latitude := 0, longitude := 0, radius := 1 },
         { latitude := 0, longitude := 100, radius := 1 }]).2.location =
      some { longitude := 100, latitude := 0 } ∧
    sailFormula
        (distTo mdist 0 0 { latitude := 0, longitude := 0, radius := 1 })
        ({ latitude := 0, longitude := 0, radius := 1 } : Checkpoint).radius
        (2 * |(1 : ℚ)|) = FV.fin (1 / 2) ∧
    (Bot.run mdist fc0 wm0 0 2 0 0 0 1 (0, 0)
        [{ latitude := 0, longitude := 0, radius := 1 },
         { latitude := 0, longitude := 100, radius := 1 }]).2.sail ≠
      some (FV.fin (1 / 2)) := by
  refine ⟨?_, ?_, ?_, ?_⟩ <;> with_unfolding_all decide

/-- C5 (amended): on a call to `run` in which the first checkpoint is just
marked reached and the scan continues to the next checkpoint, which remains
unreached (the new target), the returned sail is the throttle computed
against the NEW target checkpoint, not against the just-reached old one. -/
theorem c5_sail_from_new_target (distF : ℚ → ℚ → ℚ → ℚ → ℚ)
    (forecast : ℚ → ℚ → ℚ → ℚ) (world_map : ℚ → ℚ → ℚ)
    (t dt longitude latitude heading speed : ℚ) (vector : ℚ × ℚ)
    (ch0 ch1 : Checkpoint) (rest : List Checkpoint)
    (h0r : ch0.reached = false)
    (h0d : distTo distF longitude latitude ch0 < ch0.radius)
    (h1 : afterCheckReached distF longitude latitude ch1 = false) :
    (Bot.run distF forecast world_map t dt longitude latitude heading speed
        vector (ch0 :: ch1 :: rest)).2.sail =
      some (sailFormula (distTo distF longitude latitude ch1) ch1.radius
        (dt * |speed|)) ∧
    (Bot.run distF forecast world_map t dt longitude latitude heading speed
        vector (ch0 :: ch1 :: rest)).2.location =
      some ⟨ch1.longitude, ch1.latitude⟩ := by
  have hac0 : afterCheckReached distF longitude latitude ch0 = true := by
    simp [afterCheckReached, h0d]
  have hsc : scanCount distF longitude latitude (ch0 :: ch1 :: rest) = 2 := by
    simp [scanCount, hac0, h1]
  have hfi : firstUnreachedIdx distF longitude latitude
      (ch0 :: ch1 :: rest) = 1 := by
    simp [firstUnreachedIdx, hac0, h1]
  constructor
  · rw [Bot.run_eq, runLoop_sail _ _ _ _ _ _ _ (by simp), hsc]
    rfl
  · rw [Bot.run_eq, runLoop_location, hfi,
      if_pos (by simp : 1 < (ch0 :: ch1 :: rest).length)]
    rfl

/-- Witness for C5 (amended): vessel on checkpoint 0 (radius 1), checkpoint
1 at distance 100 unreached; `jump = 2` and `100 < 2 * 1 + 2` is false, so
the returned sail is `1`, the throttle against the new target. -/
theorem c5_witness :
    (Bot.run mdist fc0 wm0 0 2 0 0 0 1 (0, 0)
        [{ latitude := 0, longitude := 0, radius := 1 },
         { latitude := 0, longitude := 100, radius := 1 }]).2.sail =
      some (FV.fin 1) := by
  have h := (c5_sail_from_new_target mdist fc0 wm0 0 2 0 0 0 1 (0, 0)
    { latitude := 0, longitude := 0, radius := 1 }
    { latitude := 0, longitude := 100, radius := 1 } [] (by decide)
    (by with_unfolding_all decide) (by with_unfolding_all decide)).1
  rw [h]
  with_unfolding_all decide

/-- C6: On every call to `run` with a nonempty course, non-negative tick
duration, non-negative checkpoint radii and non-negative distances, the
sail value in the returned Instruction is a finite number in the closed
interval `[0, 1]`. -/
theorem c6_sail_in_unit_interval (distF : ℚ → ℚ → ℚ → ℚ → ℚ)
    (forecast : ℚ → ℚ → ℚ → ℚ) (world_map : ℚ → ℚ → ℚ)
    (t dt longitude latitude heading speed : ℚ) (vector : ℚ × ℚ)
    (cs : List Checkpoint) (hcs : cs ≠ []) (hdt : 0 ≤ dt)
    (hrad : ∀ j, j < cs.length → 0 ≤ (nth cs j).radius)
    (hdist : ∀ j, j < cs.length →
      0 ≤ distTo distF longitude latitude (nth cs j)) :
    ∃ q, (Bot.run distF forecast world_map t dt longitude latitude heading
        speed vector cs).2.sail = some (FV.fin q) ∧ 0 ≤ q ∧ q ≤ 1 := by
  rw [Bot.run_eq, runLoop_sail _ _ _ _ _ _ _ hcs]
  have hk := scanCount_sub_one_lt distF longitude latitude cs hcs
  obtain ⟨q, hq, h0, h1⟩ := sailFormula_unit_interval _ _ _
    (hdist _ hk) (hrad _ hk) (mul_nonneg hdt (abs_nonneg speed))
  exact ⟨q, by rw [hq], h0, h1⟩

/-- Witness for C6: one checkpoint at distance 5, radius 1, jump 1; the
returned sail is a finite value in `[0, 1]`. -/
theorem c6_witness :
    ∃ q, (Bot.run mdist fc0 wm0 0 1 5 0 0 1 (0, 0)
        [{ latitude := 0, longitude := 0, radius := 1 }]).2.sail =
      some (FV.fin q) ∧ 0 ≤ q ∧ q ≤ 1 :=
  c6_sail_in_unit_interval mdist fc0 wm0 0 1 5 0 0 1 (0, 0)
    [{ latitude := 0, longitude := 0, radius := 1 }] (by decide) (by decide)
    (by
      intro j hj
      have hj0 : j = 0 := by
        simp at hj
        omega
      subst hj0
      decide)
    (by
      intro j hj
      have hj0 : j = 0 := by
        simp at hj
        omega
      subst hj0
      with_unfolding_all decide)

/-- C7: Each checkpoint's reached flag starts false in the course built by
`Bot.__init__`, and once a flag is true it stays true across any sequence
of subsequent calls to `run`. -/
theorem c7_reached_monotone (distF : ℚ → ℚ → ℚ → ℚ → ℚ)
    (forecast : ℚ → ℚ → ℚ → ℚ) (world_map : ℚ → ℚ → ℚ) :
    (∀ startLat startLon : ℚ, ∀ ch ∈ botCourse startLat startLon,
      ch.reached = false) ∧
    (∀ (tels : List Telemetry) (cs : List Checkpoint) (j : ℕ),
      j < cs.length → (nth cs j).reached = true →
      (nth (runSeq distF forecast world_map tels cs) j).reached = true) := by
  constructor
  · intro startLat startLon ch hch
    fin_cases hch <;> rfl
  · intro tels
    induction tels with
    | nil =>
      intro cs j hj h
      simpa [runSeq] using h
    | cons tel tels ih =>
      intro cs j hj h
      simp only [runSeq]
      refine ih _ j ?_ ?_
      · rw [Bot.run_length]
        exact hj
      · exact Bot.run_reached_mono distF forecast world_map tel.t tel.dt
          tel.longitude tel.latitude tel.heading tel.speed tel.vector
          cs j hj h

/-- Witness for C7: the first checkpoint of the constructed course starts
unreached, and a pre-reached checkpoint stays reached after one call. -/
theorem c7_witness :
    ({ latitude := 19.642470, longitude := -67.647903, radius := 50.0 } :
        Checkpoint).reached = false ∧
    (nth (runSeq mdist fc0 wm0 [⟨0, 1, 0, 0, 0, 1, (0, 0)⟩]
        [{ latitude := 0, longitude := 0, radius := 1, reached := true }])
      0).reached = true :=
  ⟨(c7_reached_monotone mdist fc0 wm0).1 0 0 _ (by simp [botCourse]),
    (c7_reached_monotone mdist fc0 wm0).2 [⟨0, 1, 0, 0, 0, 1, (0, 0)⟩]
      [{ latitude := 0, longitude := 0, radius := 1, reached := true }]
      0 (by decide) (by decide)⟩

/-- C8: If every checkpoint comes out of its reached-check reached (reached
before the call or within radius during it), `run` returns an Instruction
with no target location, only a sail computed from the last checkpoint
examined (the final checkpoint of the course), and every reached flag ends
true — the "course complete" result. -/
theorem c8_course_complete (distF : ℚ → ℚ → ℚ → ℚ → ℚ)
    (forecast : ℚ → ℚ → ℚ → ℚ) (world_map : ℚ → ℚ → ℚ)
    (t dt longitude latitude heading speed : ℚ) (vector : ℚ × ℚ)
    (cs : List Checkpoint) (hcs : cs ≠ [])
    (hall : ∀ j, j < cs.length →
      afterCheckReached distF longitude latitude (nth cs j) = true) :
    (Bot.run distF forecast world_map t dt longitude latitude heading speed
        vector cs).2.location = none ∧
    (Bot.run distF forecast world_map t dt longitude latitude heading speed
        vector cs).2.sail =
      some (sailFormula
        (distTo distF longitude latitude (nth cs (cs.length - 1)))
        (nth cs (cs.length - 1)).radius (dt * |speed|)) ∧
    ∀ j, j < cs.length →
      (nth (Bot.run distF forecast world_map t dt longitude latitude heading
        speed vector cs).1 j).reached = true := by
  have hlen : 0 < cs.length := List.length_pos.mpr hcs
  have hfige : cs.length ≤ firstUnreachedIdx distF longitude latitude cs :=
    le_firstUnreachedIdx _ _ _ _ cs.length le_rfl hall
  have hsc : scanCount distF longitude latitude cs = cs.length := by
    rw [scanCount_eq_min]
    omega
  refine ⟨?_, ?_, ?_⟩
  · rw [Bot.run_eq, runLoop_location, if_neg (by omega)]
  · rw [Bot.run_eq, runLoop_sail _ _ _ _ _ _ _ hcs, hsc]
  · intro j hj
    have hj' := hall j hj
    rw [Bot.run_eq, runLoop_fst_nth _ _ _ _ _ _ _ j hj]
    by_cases hd : distTo distF longitude latitude (nth cs j) <
        (nth cs j).radius
    · rw [if_pos ⟨by omega, hd⟩]
    · rw [if_neg (fun hcon => hd hcon.2)]
      simpa [afterCheckReached, hd] using hj'

/-- Witness for C8: a single already-reached checkpoint; the call returns
no target location. -/
theorem c8_witness :
    (Bot.run mdist fc0 wm0 0 1 0 0 0 1 (0, 0)
        [{ latitude := 0, longitude := 0, radius := 1,
           reached := true }]).2.location = none :=
  (c8_course_complete mdist fc0 wm0 0 1 0 0 0 1 (0, 0)
    [{ latitude := 0, longitude := 0, radius := 1, reached := true }]
    (by decide)
    (by
      intro j hj
      have hj0 : j = 0 := by
        simp at hj
        omega
      subst hj0
      with_unfolding_all decide)).1

/-- C9: a call to `run` preserves the course's length and every
checkpoint's latitude, longitude and radius — only reached flags can
change; in the embedding `run` is a pure function whose entire output is
the updated course plus the returned Instructions, so there is no other
side effect. -/
theorem c9_frame_only_reached (distF : ℚ → ℚ → ℚ → ℚ → ℚ)
    (forecast : ℚ → ℚ → ℚ → ℚ) (world_map : ℚ → ℚ → ℚ)
    (t dt longitude latitude heading speed : ℚ) (vector : ℚ × ℚ)
    (cs : List Checkpoint) :
    (Bot.run distF forecast world_map t dt longitude latitude heading speed
        vector cs).1.length = cs.length ∧
    ∀ j, j < cs.length →
      (nth (Bot.run distF forecast world_map t dt longitude latitude heading
        speed vector cs).1 j).latitude = (nth cs j).latitude ∧
      (nth (Bot.run distF forecast world_map t dt longitude latitude heading
        speed vector cs).1 j).longitude = (nth cs j).longitude ∧
      (nth (Bot.run distF forecast world_map t dt longitude latitude heading
        speed vector cs).1 j).radius = (nth cs j).radius := by
  refine ⟨Bot.run_length distF forecast world_map t dt longitude latitude
    heading speed vector cs, ?_⟩
  intro j hj
  rw [Bot.run_eq, runLoop_fst_nth _ _ _ _ _ _ _ j hj]
  split
  · exact ⟨rfl, rfl, rfl⟩
  · exact ⟨rfl, rfl, rfl⟩

/-- Witness for C9: the radius of the scanned checkpoint is unchanged. -/
theorem c9_witness :
    (nth (Bot.run mdist fc0 wm0 0 1 0 0 0 1 (0, 0)
        [{ latitude := 0, longitude := 0, radius := 1 }]).1 0).radius = 1 :=
  ((c9_frame_only_reached mdist fc0 wm0 0 1 0 0 0 1 (0, 0)
    [{ latitude := 0, longitude := 0, radius := 1 }]).2 0 (by decide)).2.2

/-- C10: two calls to `run` with identical telemetry and course but
arbitrarily different `forecast` and `world_map` query functions return
the identical Instruction and identical reached flags: the decision does
not depend on the query results (which the source computes and then
discards). -/
theorem c10_queries_noninterference (distF : ℚ → ℚ → ℚ → ℚ → ℚ)
    (forecast1 forecast2 : ℚ → ℚ → ℚ → ℚ)
    (world_map1 world_map2 : ℚ → ℚ → ℚ)
    (t dt longitude latitude heading speed : ℚ) (vector : ℚ × ℚ)
    (cs : List Checkpoint) :
    Bot.run distF forecast1 world_map1 t dt longitude latitude heading speed
        vector cs =
      Bot.run distF forecast2 world_map2 t dt longitude latitude heading
        speed vector cs := rfl

end EuropythonBot
